import Mathlib

/-
Verification of the navigation & dispatch engine of twitch-menu (src/twitch/app.py)
against its natural-language specification.  The Python screen loops are embedded as
pure Lean functions over explicit select results; external collaborators (menu,
fetcher, pyselector keybind manager, player) appear as parameters or as small models
taken from the spec where their code is outside the repository.
-/

namespace Twitch

/-- The result code that constants.UserConfirms(0) denotes; the enum value is its code. -/
def UserConfirms (n : Nat) : Nat := n

/-- The result code that constants.UserCancel(1) denotes; the enum value is its code. -/
def UserCancel (n : Nat) : Nat := n

/-- Item model.  datatypes.TwitchChannel itself is not under src, so the field set is the
set of attributes app.py reads or writes on items: id, name, url, title, playable, live,
game_name and a viewer count (used by the category totals).  The extra flag has_playable
models the Python attribute probe used at app.py lines 84 and 171: a plain user-input
string lacks the attribute, so has_playable is false for it. -/
structure TwitchChannel where
  id : String
  name : String
  url : String
  title : String
  has_playable : Bool
  playable : Bool
  live : Bool
  game_name : String
  viewer_count : Nat
  deriving Repr, DecidableEq

/-- models.category.Category as constructed at app.py line 128: a name, an
insertion-ordered mapping channel-name to channel (a Python dict, embedded as an
association list), and the markup/ansi display flags. -/
structure Category where
  name : String
  channels : List (String × TwitchChannel)
  markup : Bool
  ansi : Bool
  deriving Repr, DecidableEq

/-- Modelled from the spec: Category.total_viewers (twitch/models/category.py is not under
src).  Per the spec the total is the sum of viewer counts across the category's live
channels. -/
def Category.total_viewers (c : Category) : Nat :=
  ((c.channels.filter (fun p => p.2.live)).map (fun p => p.2.viewer_count)).sum

/-- Modelled from the spec: Category.channels_live (twitch/models/category.py is not under
src): the count of live channels in the category. -/
def Category.channels_live (c : Category) : Nat :=
  (c.channels.filter (fun p => p.2.live)).length

/-- A keybind as app.py uses it: a trigger code, a bind label, and a hidden flag. -/
structure Keybind where
  code : Nat
  bind : String
  hidden : Bool
  deriving Repr, DecidableEq

/-- Modelled from the spec: pyselector key_manager get_by_code (the pyselector library is
external to this repository).  Spec section 4.1: it fails with NotFound when the code is
not currently registered.  The registry is the list of currently registered keybinds. -/
def get_by_code (reg : List Keybind) (code : Nat) : Except String Keybind :=
  match reg.find? (fun k => k.code == code) with
  | some k => Except.ok k
  | none => Except.error "NotFound"

/-- Modelled from the spec: pyselector Keybind.hide sets the keybind's hidden flag, so
get_by_bind(b).hide() at app.py line 376 hides the keybind carrying bind label b. -/
def hide_by_bind (reg : List Keybind) (bind : String) : List Keybind :=
  reg.map (fun k => if k.bind = bind then { k with hidden := true } else k)

/-- The resolved outcome of one screen-loop iteration in app.py.
play name url stands for self.play(name=..., url=...) followed by return 0;
recurseVideos stands for return await self.show_videos(item=item);
invokeKeybind k stands for return await k.action(...);
raiseNotPlayable stands for raise ItemNotPlaylableError;
attrErrorNoneItem stands for the AttributeError raised when the error-message f-string
reads item.name while item is None;
raiseNotFound stands for get_by_code failing with NotFound;
loopAgain stands for falling through to the next iteration of the while-loop. -/
inductive ScreenAction where
  | ret (code : Nat)
  | play (name url : String)
  | recurseVideos (item : TwitchChannel)
  | invokeKeybind (k : Keybind)
  | raiseNotPlayable (name : String)
  | attrErrorNoneItem
  | raiseNotFound
  | loopAgain
  deriving Repr, DecidableEq

/-- True exactly on the invokeKeybind outcome. -/
def ScreenAction.isInvokeKeybind : ScreenAction → Bool
  | ScreenAction.invokeKeybind _ => true
  | _ => false

/-- One iteration of the show_all_streams while-loop (app.py lines 74-101), as a function
of the select result (item, keycode) and the registered keybinds.  The branch order is the
source's: no item, then the attribute probe, then offline-confirm recursion, then confirm,
then keybind dispatch, else loop. -/
def show_all_streams_step (reg : List Keybind) (item : Option TwitchChannel)
    (keycode : Nat) : ScreenAction :=
  match item with
  | none => ScreenAction.ret (UserCancel 1)
  | some it =>
    if it.has_playable = false then ScreenAction.raiseNotPlayable it.name
    else if it.playable = false ∧ keycode = UserConfirms 0 then ScreenAction.recurseVideos it
    else if keycode = UserConfirms 0 then ScreenAction.play it.name it.url
    else if keycode ≠ UserConfirms 0 ∧ keycode ≠ UserCancel 1 then
      match get_by_code reg keycode with
      | Except.ok k => ScreenAction.invokeKeybind k
      | Except.error _ => ScreenAction.raiseNotFound
    else ScreenAction.loopAgain

/-- One iteration of the show_and_play while-loop together with its post-loop playability
check (app.py lines 162-176).  The source checks keycode == UserConfirms(0) (break) before
the no-item check; after the break, not hasattr(item, playable-attribute) or a false
playable flag raises, the error message reading item.name (an AttributeError when item is
None). -/
def show_and_play_step (reg : List Keybind) (item : Option TwitchChannel)
    (keycode : Nat) : ScreenAction :=
  if keycode = UserConfirms 0 then
    match item with
    | none => ScreenAction.attrErrorNoneItem
    | some it =>
      if it.has_playable = false ∨ it.playable = false then ScreenAction.raiseNotPlayable it.name
      else ScreenAction.play it.name it.url
  else if item = none ∨ keycode = UserCancel 1 then ScreenAction.ret (UserCancel 1)
  else if keycode ≠ UserConfirms 0 ∧ keycode ≠ UserCancel 1 then
    match item with
    | none => ScreenAction.ret (UserCancel 1)
    | some _ =>
      match get_by_code reg keycode with
      | Except.ok k => ScreenAction.invokeKeybind k
      | Except.error _ => ScreenAction.raiseNotFound
  else ScreenAction.loopAgain

/-- One iteration of the show_by_query while-loop together with its post-loop play
(app.py lines 192-203): no item or Cancel returns 1; a non-playable item confirmed
recurses into its videos; a playable item confirmed plays; any other code dispatches to
the keybind. -/
def show_by_query_step (reg : List Keybind) (item : Option TwitchChannel)
    (keycode : Nat) : ScreenAction :=
  match item with
  | none => ScreenAction.ret (UserCancel 1)
  | some it =>
    if keycode = UserCancel 1 then ScreenAction.ret (UserCancel 1)
    else if it.playable = false ∧ keycode = UserConfirms 0 then ScreenAction.recurseVideos it
    else if keycode = UserConfirms 0 then ScreenAction.play it.name it.url
    else if keycode ≠ UserConfirms 0 ∧ keycode ≠ UserCancel 1 then
      match get_by_code reg keycode with
      | Except.ok k => ScreenAction.invokeKeybind k
      | Except.error _ => ScreenAction.raiseNotFound
    else ScreenAction.loopAgain

/-- The resolution of the inner (channel-level) selection of show_top_games
(app.py lines 279-294): no item continues the outer loop; Confirm breaks and plays; a
code that is neither Confirm nor Cancel dispatches to the keybind; Cancel with an item
falls through and continues the loop. -/
def show_top_games_inner_step (reg : List Keybind) (item : Option TwitchChannel)
    (keycode : Nat) : ScreenAction :=
  match item with
  | none => ScreenAction.loopAgain
  | some it =>
    if keycode = UserConfirms 0 then ScreenAction.play it.name it.url
    else if keycode ≠ UserConfirms 0 ∧ keycode ≠ UserCancel 1 then
      match get_by_code reg keycode with
      | Except.ok k => ScreenAction.invokeKeybind k
      | Except.error _ => ScreenAction.raiseNotFound
    else ScreenAction.loopAgain

/-- Outcome of the outer (category-level) selection of show_top_games
(app.py lines 270-272): no category returns UserCancel(1), otherwise the loop proceeds to
the channel selection of that category. -/
inductive TopGamesOuter where
  | ret (code : Nat)
  | proceed (cat : Category)
  deriving Repr, DecidableEq

/-- The outer selection resolution of show_top_games (app.py lines 270-272). -/
def show_top_games_outer_step (cat : Option Category) : TopGamesOuter :=
  match cat with
  | none => TopGamesOuter.ret (UserCancel 1)
  | some c => TopGamesOuter.proceed c

/-- Lookup in a Python dict embedded as an insertion-ordered association list. -/
def dictLookup : List (String × α) → String → Option α
  | [], _ => none
  | (k, v) :: rest, g => if k = g then some v else dictLookup rest g

/-- Assignment d[k] = v on a Python dict embedded as an insertion-ordered association
list: an existing key keeps its position and gets the new value, a new key is appended. -/
def dictSet : List (String × α) → String → α → List (String × α)
  | [], k, v => [(k, v)]
  | (k0, v0) :: rest, k, v =>
    if k0 = k then (k, v) :: rest else (k0, v0) :: dictSet rest k v

/-- categories.setdefault(g, Category(name=g, channels={}, markup=..., ansi=...)) as used
at app.py lines 126-129: the stored category for g, or the fresh empty one. -/
def setdefaultCat (markup ansi : Bool) (cats : List (String × Category)) (g : String) :
    Category :=
  (dictLookup cats g).getD { name := g, channels := [], markup := markup, ansi := ansi }

/-- The body of the grouping for-loop of show_group_by_cat (app.py lines 123-130): a
non-live channel is skipped; otherwise categories.setdefault(chan.game_name, Category(...))
fetches or creates the category and category.channels[chan.name] = chan stores the channel
under its name inside that category (the updated category sits at the key's position). -/
def groupStep (markup ansi : Bool) (cats : List (String × Category))
    (chan : TwitchChannel) : List (String × Category) :=
  if chan.live = false then cats
  else
    dictSet cats chan.game_name
      { setdefaultCat markup ansi cats chan.game_name with
        channels := dictSet (setdefaultCat markup ansi cats chan.game_name).channels
          chan.name chan }

/-- The grouping phase of show_group_by_cat (app.py lines 117-130), folding the input
items (the dict values in insertion order) into the categories dict. -/
def show_group_by_cat_grouping (markup ansi : Bool) (items : List TwitchChannel) :
    List (String × Category) :=
  items.foldl (groupStep markup ansi) []

/-- The category list show_group_by_cat hands to select (app.py line 132):
sorted(categories.items(), key total_viewers, reverse=True), a stable sort by total
viewer count descending. -/
def show_group_by_cat_categories (markup ansi : Bool) (items : List TwitchChannel) :
    List (String × Category) :=
  (show_group_by_cat_grouping markup ansi items).mergeSort
    (fun a b => Nat.ble b.2.total_viewers a.2.total_viewers)

/-- The per-game channel listing grouping should produce: the live input items whose
game_name is g, in input order, each keyed by its channel name. -/
def gameChannels (items : List TwitchChannel) (g : String) :
    List (String × TwitchChannel) :=
  (items.filter (fun c => c.live && c.game_name == g)).map (fun c => (c.name, c))

/-- Outcome of TwitchApp.select (app.py lines 351-371): whether the items=["err: no items"]
placeholder call was made, and the returned (item, keycode) pair. -/
structure SelectOutcome (α : Type) where
  renderedPlaceholder : Bool
  item : Option α
  keycode : Nat
  deriving Repr, DecidableEq

/-- Embeds TwitchApp.select (app.py lines 351-371): with an empty items dict it renders the
single synthetic placeholder and returns (None, UserCancel(1)); otherwise it forwards the
external menu.select outcome, which the parameter menuResp stands for. -/
def select (items : List (String × α)) (menuResp : Option α × Nat) : SelectOutcome α :=
  if items.isEmpty then
    { renderedPlaceholder := true, item := none, keycode := UserCancel 1 }
  else
    { renderedPlaceholder := false, item := menuResp.1, keycode := menuResp.2 }

/-- Result of show_group_by_cat: an exit code, or the recursion into show_and_play on the
chosen category's channels (app.py line 139). -/
inductive GroupByCatResult where
  | ret (code : Nat)
  | recurse (channels : List (String × TwitchChannel))
  deriving Repr, DecidableEq

/-- Embeds show_group_by_cat (app.py lines 116-139): an empty input dict returns 1 before
any menu call; otherwise the grouped and sorted categories go to select, and its outcome
(catResp stands for the external menu response) resolves to return 1 when no category was
chosen, or to recursing into show_and_play on the chosen category's channels.  The Bool in
the result reports whether the synthetic placeholder was rendered during the call. -/
def show_group_by_cat_run (markup ansi : Bool) (items : List TwitchChannel)
    (catResp : Option Category × Nat) : GroupByCatResult × Bool :=
  if items.isEmpty then (GroupByCatResult.ret 1, false)
  else
    let cats := show_group_by_cat_categories markup ansi items
    let sel := select cats catResp
    match sel.item with
    | none => (GroupByCatResult.ret 1, sel.renderedPlaceholder)
    | some category => (GroupByCatResult.recurse category.channels, sel.renderedPlaceholder)

/-- Result of the streams phase of show_by_game: an exit code, or the recursion into
show_and_play on the fetched streams keyed by id (app.py line 228). -/
inductive ByGameStreams where
  | ret (code : Nat)
  | recurse (streams : List (String × TwitchChannel))
  deriving Repr, DecidableEq

/-- Embeds the empty-streams check of show_by_game (app.py lines 222-228): with no streams
it calls select on an empty dict (rendering the placeholder) and returns 1; otherwise it
recurses into show_and_play on the streams keyed by id.  The Bool reports whether the
placeholder was rendered. -/
def show_by_game_streams_phase (streams : List TwitchChannel)
    (menuResp : Option TwitchChannel × Nat) : ByGameStreams × Bool :=
  if streams.isEmpty then
    let sel := select ([] : List (String × TwitchChannel)) menuResp
    (ByGameStreams.ret 1, sel.renderedPlaceholder)
  else (ByGameStreams.recurse (streams.map (fun s => (s.id, s))), false)

/-- Python str.strip on the embedded string: drops leading and trailing whitespace. -/
def pyStrip (s : String) : String :=
  ⟨((s.data.dropWhile Char.isWhitespace).reverse.dropWhile Char.isWhitespace).reverse⟩

/-- Embeds TwitchApp.take_input (app.py lines 329-335) on the string it returns.  rawInput
stands for the outcome of the external self.menu.input call (none models a null response);
a falsy response returns the empty string, anything else is stripped.  The surrounding
toggle_hidden and toggle_hidden(restore=True) calls only affect what the menu displays and
restore the prior visibility, so they do not appear in the returned value. -/
def take_input (rawInput : Option String) : String :=
  match rawInput with
  | none => ""
  | some s => if s = "" then "" else pyStrip s

/-- The query-resolution phase shared by show_by_query (app.py lines 178-185) and
show_by_game (lines 205-212): cancelled models returning 1 before any fetch call,
fetchQuery q models proceeding to the fetch-orchestrator search with query q. -/
inductive QueryPhase where
  | cancelled
  | fetchQuery (q : String)
  deriving Repr, DecidableEq

/-- Embeds the query-resolution phase of show_by_query and show_by_game: a missing or
falsy (empty) query argument falls back to take_input; a falsy resulting query returns 1
with no fetch, otherwise the fetch proceeds with that query. -/
def resolve_query (queryArg : Option String) (rawInput : Option String) : QueryPhase :=
  let query : String :=
    match queryArg with
    | none => take_input rawInput
    | some s => if s = "" then take_input rawInput else s
  if query = "" then QueryPhase.cancelled else QueryPhase.fetchQuery query

/-- Embeds the item mutation of show_item_info (app.py line 242): item.title is reassigned
to format.sanitize(item.title) before the item is rendered.  sanitize stands for
format.sanitize (the format module is outside src); the remaining lines of the function
only read the item. -/
def show_item_info_item (sanitize : String → String) (item : TwitchChannel) :
    TwitchChannel :=
  { item with title := sanitize item.title }

/-- The return value of show_item_info (app.py lines 246-255): whether a row was selected
or not, the function returns the menu's result code unchanged (selecting a row only copies
its value to the clipboard first). -/
def show_item_info_retcode (selected : Option String) (keycode : Nat) : Nat :=
  match selected with
  | none => keycode
  | some _ => keycode

/-- Player-process events of multi_selection: launchBg url stands for
sh.mpv(url, _bg=True), which starts the player in the background and returns at once;
waitExit url stands for the subsequent RunningCommand.wait() on that process, which blocks
until the player process exits. -/
inductive PlayerEvent where
  | launchBg (url : String)
  | waitExit (url : String)
  deriving Repr, DecidableEq

/-- Embeds multi_selection (app.py lines 373-392).  The show-keybinds keybind is hidden up
front via get_by_bind(keys.show_keys).hide(); an empty items dict renders the placeholder
and returns 1; a falsy multi-select outcome (selResp stands for the external menu
response: none, or the list of chosen streams) returns 1; otherwise every chosen stream's
url is launched as a background player process and then each process is waited on until it
exits, before returning 0.  The result is the exit code, the ordered player-process
events, and the final keybind registry. -/
def multi_selection_run (reg : List Keybind) (show_keys_bind : String)
    (items : List (String × TwitchChannel))
    (selResp : Option (List TwitchChannel) × Nat) :
    (Nat × List PlayerEvent) × List Keybind :=
  let reg1 := hide_by_bind reg show_keys_bind
  let outcome : Nat × List PlayerEvent :=
    if items.isEmpty then (UserCancel 1, [])
    else
      match selResp.1 with
      | none => (UserCancel 1, [])
      | some streams =>
        if streams.isEmpty then (UserCancel 1, [])
        else
          let procs := streams.map (fun j => PlayerEvent.launchBg j.url)
          let waits := streams.map (fun p => PlayerEvent.waitExit p.url)
          (0, procs ++ waits)
  (outcome, reg1)

/-- Sample live, playable channel. -/
def chanA : TwitchChannel :=
  { id := "1", name := "alice", url := "https://t/alice", title := "t1",
    has_playable := true, playable := true, live := true, game_name := "X",
    viewer_count := 7 }

/-- Sample offline, non-playable channel. -/
def chanOffline : TwitchChannel :=
  { id := "2", name := "bob", url := "https://t/bob", title := "t2",
    has_playable := true, playable := false, live := false, game_name := "X",
    viewer_count := 0 }

/-- Sample live channel named carol, game X, 1 viewer. -/
def chanDup1 : TwitchChannel :=
  { id := "3", name := "carol", url := "https://t/carol1", title := "t3",
    has_playable := true, playable := true, live := true, game_name := "X",
    viewer_count := 1 }

/-- Sample live channel also named carol in game X (distinct id and url), 2 viewers. -/
def chanDup2 : TwitchChannel :=
  { id := "4", name := "carol", url := "https://t/carol2", title := "t4",
    has_playable := true, playable := true, live := true, game_name := "X",
    viewer_count := 2 }

/-- Sample live channel in game Y, 5 viewers. -/
def chanB : TwitchChannel :=
  { id := "5", name := "dave", url := "https://t/dave", title := "t5",
    has_playable := true, playable := true, live := true, game_name := "Y",
    viewer_count := 5 }

/-- Sample keybind with the show-keybinds bind label. -/
def kbShowKeys : Keybind := { code := 10, bind := "F1", hidden := false }

/-- C9: in show_and_play the Confirm check precedes the no-item check, so a select result
of no item together with code 0 breaks out of the loop and fails reading item.name while
building the not-playable error message, instead of returning the cancellation code 1. -/
theorem C9_confirm_checked_before_none (reg : List Keybind) :
    show_and_play_step reg none 0 = ScreenAction.attrErrorNoneItem ∧
      show_and_play_step reg none 0 ≠ ScreenAction.ret 1 := by
  refine ⟨rfl, ?_⟩
  simp [show_and_play_step, UserConfirms]

/-- C4 fails as stated: with result code 5, an empty registry (so no keybind matches) and
no chosen item, the inner show_top_games selection continues its loop and show_all_streams
returns Cancel; neither fails with the unknown-code error. -/
theorem C4_counterexample :
    show_top_games_inner_step [] none 5 = ScreenAction.loopAgain ∧
      show_top_games_inner_step [] none 5 ≠ ScreenAction.raiseNotFound ∧
      show_all_streams_step [] none 5 = ScreenAction.ret 1 ∧
      show_all_streams_step [] none 5 ≠ ScreenAction.raiseNotFound := by
  refine ⟨rfl, ?_, rfl, ?_⟩ <;> decide

/-- C4 amended: a result code that is neither 0 nor 1 and matches no registered keybind
makes the keybind lookup fail with NotFound (per the spec model of get_by_code) in the
four selection-resolving steps when an item carrying the playable attribute was chosen;
but without a chosen item the code is never looked up: show_all_streams, show_and_play and
show_by_query then return Cancel and the inner show_top_games selection continues its
loop; and the outer show_top_games and show_group_by_cat selections ignore the result code
and proceed with the chosen category, while show_item_info returns the code unchanged. -/
theorem C4_unregistered_code_fails (reg : List Keybind) (it : TwitchChannel) (keycode : Nat)
    (h0 : keycode ≠ 0) (h1 : keycode ≠ 1)
    (hreg : List.find? (fun k => k.code == keycode) reg = none)
    (hp : it.has_playable = true) :
    (show_all_streams_step reg (some it) keycode = ScreenAction.raiseNotFound ∧
      show_and_play_step reg (some it) keycode = ScreenAction.raiseNotFound ∧
      show_by_query_step reg (some it) keycode = ScreenAction.raiseNotFound ∧
      show_top_games_inner_step reg (some it) keycode = ScreenAction.raiseNotFound) ∧
    (show_all_streams_step reg none keycode = ScreenAction.ret 1 ∧
      show_and_play_step reg none keycode = ScreenAction.ret 1 ∧
      show_by_query_step reg none keycode = ScreenAction.ret 1 ∧
      show_top_games_inner_step reg none keycode = ScreenAction.loopAgain) ∧
    (∀ cat : Category, show_top_games_outer_step (some cat) = TopGamesOuter.proceed cat) ∧
    (∀ (markup ansi : Bool) (items : List TwitchChannel) (cat : Category),
      items.isEmpty = false →
      (show_group_by_cat_categories markup ansi items).isEmpty = false →
      (show_group_by_cat_run markup ansi items (some cat, keycode)).1 =
        GroupByCatResult.recurse cat.channels) ∧
    (∀ selected : Option String, show_item_info_retcode selected keycode = keycode) := by
  refine ⟨⟨?_, ?_, ?_, ?_⟩, ⟨?_, ?_, ?_, ?_⟩, ?_, ?_, ?_⟩
  · simp [show_all_streams_step, get_by_code, hreg, UserConfirms, UserCancel, h0, h1, hp]
  · simp [show_and_play_step, get_by_code, hreg, UserConfirms, UserCancel, h0, h1, hp]
  · simp [show_by_query_step, get_by_code, hreg, UserConfirms, UserCancel, h0, h1, hp]
  · simp [show_top_games_inner_step, get_by_code, hreg, UserConfirms, UserCancel, h0, h1]
  · rfl
  · simp [show_and_play_step, UserConfirms, UserCancel, h0]
  · rfl
  · rfl
  · intro cat
    rfl
  · intro markup ansi items cat hitems hcats
    unfold show_group_by_cat_run
    rw [if_neg (by simp [hitems])]
    simp [select, hcats]
  · intro selected
    cases selected <;> rfl

/-- Witness for C4 at code 5, an empty registry and the sample channel. -/
theorem C4_unregistered_code_fails_witness :
    (5 : Nat) ≠ 0 ∧ (5 : Nat) ≠ 1 ∧
      List.find? (fun k => k.code == 5) ([] : List Keybind) = none ∧
      chanA.has_playable = true ∧
      ((show_all_streams_step [] (some chanA) 5 = ScreenAction.raiseNotFound ∧
        show_and_play_step [] (some chanA) 5 = ScreenAction.raiseNotFound ∧
        show_by_query_step [] (some chanA) 5 = ScreenAction.raiseNotFound ∧
        show_top_games_inner_step [] (some chanA) 5 = ScreenAction.raiseNotFound) ∧
      (show_all_streams_step [] none 5 = ScreenAction.ret 1 ∧
        show_and_play_step [] none 5 = ScreenAction.ret 1 ∧
        show_by_query_step [] none 5 = ScreenAction.ret 1 ∧
        show_top_games_inner_step [] none 5 = ScreenAction.loopAgain) ∧
      (∀ cat : Category, show_top_games_outer_step (some cat) = TopGamesOuter.proceed cat) ∧
      (∀ (markup ansi : Bool) (items : List TwitchChannel) (cat : Category),
        items.isEmpty = false →
        (show_group_by_cat_categories markup ansi items).isEmpty = false →
        (show_group_by_cat_run markup ansi items (some cat, 5)).1 =
          GroupByCatResult.recurse cat.channels) ∧
      (∀ selected : Option String, show_item_info_retcode selected 5 = 5)) :=
  ⟨by decide, by decide, rfl, rfl,
    C4_unregistered_code_fails [] chanA 5 (by decide) (by decide) rfl rfl⟩

/-- C1 fails as stated: in show_and_play, confirming the non-playable item chanOffline
raises ItemNotPlaylableError instead of recursing into the item's video list. -/
theorem C1_counterexample :
    show_and_play_step [] (some chanOffline) 0 = ScreenAction.raiseNotPlayable "bob" ∧
      show_and_play_step [] (some chanOffline) 0 ≠ ScreenAction.recurseVideos chanOffline := by
  refine ⟨?_, ?_⟩ <;> decide

/-- C1 amended: on Confirm (code 0) with a chosen item carrying the playable attribute,
show_all_streams and show_by_query recurse into the item's videos when it is not playable,
while show_and_play raises ItemNotPlaylableError; none of them dispatches a non-playable
item to the player; and all three play exactly the item's name and url (returning 0) when
it is playable. -/
theorem C1_confirm_dispatch (reg : List Keybind) (it : TwitchChannel)
    (hp : it.has_playable = true) :
    (it.playable = false →
      show_all_streams_step reg (some it) 0 = ScreenAction.recurseVideos it ∧
      show_by_query_step reg (some it) 0 = ScreenAction.recurseVideos it ∧
      show_and_play_step reg (some it) 0 = ScreenAction.raiseNotPlayable it.name ∧
      show_and_play_step reg (some it) 0 ≠ ScreenAction.play it.name it.url) ∧
    (it.playable = true →
      show_all_streams_step reg (some it) 0 = ScreenAction.play it.name it.url ∧
      show_by_query_step reg (some it) 0 = ScreenAction.play it.name it.url ∧
      show_and_play_step reg (some it) 0 = ScreenAction.play it.name it.url) := by
  constructor
  · intro hnp
    refine ⟨?_, ?_, ?_, ?_⟩ <;>
      simp [show_all_streams_step, show_by_query_step, show_and_play_step,
        UserConfirms, UserCancel, hp, hnp]
  · intro hpl
    refine ⟨?_, ?_, ?_⟩ <;>
      simp [show_all_streams_step, show_by_query_step, show_and_play_step,
        UserConfirms, UserCancel, hp, hpl]

/-- Witness for C1 at the sample offline channel. -/
theorem C1_confirm_dispatch_witness :
    chanOffline.has_playable = true ∧
      ((chanOffline.playable = false →
        show_all_streams_step [] (some chanOffline) 0 = ScreenAction.recurseVideos chanOffline ∧
        show_by_query_step [] (some chanOffline) 0 = ScreenAction.recurseVideos chanOffline ∧
        show_and_play_step [] (some chanOffline) 0 =
          ScreenAction.raiseNotPlayable chanOffline.name ∧
        show_and_play_step [] (some chanOffline) 0 ≠
          ScreenAction.play chanOffline.name chanOffline.url) ∧
      (chanOffline.playable = true →
        show_all_streams_step [] (some chanOffline) 0 =
          ScreenAction.play chanOffline.name chanOffline.url ∧
        show_by_query_step [] (some chanOffline) 0 =
          ScreenAction.play chanOffline.name chanOffline.url ∧
        show_and_play_step [] (some chanOffline) 0 =
          ScreenAction.play chanOffline.name chanOffline.url)) :=
  ⟨rfl, C1_confirm_dispatch [] chanOffline rfl⟩

/-- C3 fails as stated: in show_top_games, cancelling the inner channel selection (no item
chosen) continues the outer loop instead of returning exit code 1. -/
theorem C3_counterexample :
    show_top_games_inner_step [] none 1 = ScreenAction.loopAgain ∧
      show_top_games_inner_step [] none 1 ≠ ScreenAction.ret 1 := by
  refine ⟨rfl, ?_⟩
  decide

/-- C3 amended: a cancellation (no item chosen, or result code 1) never invokes a keybind
action in any selection-resolving step; show_by_query returns 1, show_all_streams and the
outer show_top_games selection return 1 when no item is chosen, and show_and_play returns 1
unless the code is 0; but the inner show_top_games selection re-enters its loop on
cancellation instead of returning 1. -/
theorem C3_cancel_never_keybind (reg : List Keybind) (item : Option TwitchChannel)
    (keycode : Nat) (h : item = none ∨ keycode = 1) :
    (show_all_streams_step reg item keycode).isInvokeKeybind = false ∧
      (show_and_play_step reg item keycode).isInvokeKeybind = false ∧
      (show_by_query_step reg item keycode).isInvokeKeybind = false ∧
      (show_top_games_inner_step reg item keycode).isInvokeKeybind = false ∧
      (item = none → show_all_streams_step reg item keycode = ScreenAction.ret 1) ∧
      (keycode ≠ 0 → show_and_play_step reg item keycode = ScreenAction.ret 1) ∧
      show_by_query_step reg item keycode = ScreenAction.ret 1 ∧
      (item = none → show_top_games_inner_step reg item keycode = ScreenAction.loopAgain) ∧
      show_top_games_outer_step none = TopGamesOuter.ret 1 := by
  rcases h with h | h
  · subst h
    by_cases h0 : keycode = 0 <;>
      simp [show_all_streams_step, show_and_play_step, show_by_query_step,
        show_top_games_inner_step, show_top_games_outer_step, ScreenAction.isInvokeKeybind,
        UserConfirms, UserCancel, h0]
  · subst h
    rcases item with _ | it
    · simp [show_all_streams_step, show_and_play_step, show_by_query_step,
        show_top_games_inner_step, show_top_games_outer_step, ScreenAction.isInvokeKeybind,
        UserConfirms, UserCancel]
    · by_cases hhp : it.has_playable = false <;>
        simp [show_all_streams_step, show_and_play_step, show_by_query_step,
          show_top_games_inner_step, show_top_games_outer_step, ScreenAction.isInvokeKeybind,
          UserConfirms, UserCancel, hhp]

/-- Witness for C3 at no chosen item and code 1. -/
theorem C3_cancel_never_keybind_witness :
    ((none : Option TwitchChannel) = none ∨ (1 : Nat) = 1) ∧
      ((show_all_streams_step [] none 1).isInvokeKeybind = false ∧
        (show_and_play_step [] none 1).isInvokeKeybind = false ∧
        (show_by_query_step [] none 1).isInvokeKeybind = false ∧
        (show_top_games_inner_step [] none 1).isInvokeKeybind = false ∧
        ((none : Option TwitchChannel) = none →
          show_all_streams_step [] none 1 = ScreenAction.ret 1) ∧
        ((1 : Nat) ≠ 0 → show_and_play_step [] none 1 = ScreenAction.ret 1) ∧
        show_by_query_step [] none 1 = ScreenAction.ret 1 ∧
        ((none : Option TwitchChannel) = none →
          show_top_games_inner_step [] none 1 = ScreenAction.loopAgain) ∧
        show_top_games_outer_step none = TopGamesOuter.ret 1) :=
  ⟨Or.inl rfl, C3_cancel_never_keybind [] none 1 (Or.inl rfl)⟩

/-- C6: when show_by_query or show_by_game is invoked without a query argument and the
free-text input is empty or whitespace-only after trimming, take_input yields the empty
string and the query phase cancels (returns 1) without reaching any fetch call. -/
theorem C6_blank_query_input_cancels (rawInput : Option String)
    (h : pyStrip (rawInput.getD "") = "") :
    take_input rawInput = "" ∧
      resolve_query none rawInput = QueryPhase.cancelled := by
  have ht : take_input rawInput = "" := by
    rcases rawInput with _ | s
    · rfl
    · by_cases hs : s = ""
      · simp [take_input, hs]
      · simpa [take_input, hs] using h
  exact ⟨ht, by simp [resolve_query, ht]⟩

/-- Witness for C6 at the whitespace-only input. -/
theorem C6_blank_query_input_cancels_witness :
    pyStrip ((some "   ").getD "") = "" ∧
      (take_input (some "   ") = "" ∧
        resolve_query none (some "   ") = QueryPhase.cancelled) :=
  ⟨by decide, C6_blank_query_input_cancels (some "   ") (by decide)⟩

/-- C5 fails as stated: show_group_by_cat with an empty input dict returns 1 immediately
without rendering the synthetic placeholder item. -/
theorem C5_counterexample :
    show_group_by_cat_run false false [] (none, 0) = (GroupByCatResult.ret 1, false) ∧
      ¬ (show_group_by_cat_run false false [] (none, 0)).2 = true := by
  refine ⟨rfl, ?_⟩
  decide

/-- C5 amended: select on an empty items dict renders the single synthetic placeholder and
returns (none, code 1), and show_by_game's empty-streams path does the same before
returning 1; but show_group_by_cat returns 1 on an empty input dict without rendering
anything. -/
theorem C5_empty_items (α : Type) (menuResp : Option α × Nat)
    (mr : Option TwitchChannel × Nat) (markup ansi : Bool)
    (catResp : Option Category × Nat) :
    select ([] : List (String × α)) menuResp =
        { renderedPlaceholder := true, item := none, keycode := 1 } ∧
      show_by_game_streams_phase [] mr = (ByGameStreams.ret 1, true) ∧
      show_group_by_cat_run markup ansi [] catResp = (GroupByCatResult.ret 1, false) :=
  ⟨rfl, rfl, rfl⟩

/-- C7 fails as stated: show_item_info mutates the selected item, reassigning its title to
the sanitized form; with a sanitizer that blanks the title, the item changes. -/
theorem C7_counterexample :
    show_item_info_item (fun _ => "") chanA ≠ chanA := by decide

/-- C7 amended: show_item_info leaves the selected item unchanged exactly when
format.sanitize fixes its title; otherwise the title attribute is mutated in place (and no
other attribute changes). -/
theorem C7_item_info_mutation (sanitize : String → String) (item : TwitchChannel) :
    (show_item_info_item sanitize item = item ↔ sanitize item.title = item.title) ∧
      (show_item_info_item sanitize item).title = sanitize item.title ∧
      (show_item_info_item sanitize item).name = item.name ∧
      (show_item_info_item sanitize item).url = item.url ∧
      (show_item_info_item sanitize item).id = item.id ∧
      (show_item_info_item sanitize item).playable = item.playable ∧
      (show_item_info_item sanitize item).live = item.live ∧
      (show_item_info_item sanitize item).game_name = item.game_name ∧
      (show_item_info_item sanitize item).viewer_count = item.viewer_count := by
  refine ⟨⟨fun h => ?_, fun h => ?_⟩, rfl, rfl, rfl, rfl, rfl, rfl, rfl, rfl⟩
  · simpa [show_item_info_item] using congrArg TwitchChannel.title h
  · simp [show_item_info_item, h]

/-- C8 fails as stated: after the multi-select confirmation, multi_selection waits on each
launched player process until it exits (playback ends); the event trace contains a
wait-for-exit event before the screen returns. -/
theorem C8_counterexample :
    PlayerEvent.waitExit chanA.url ∈
      (multi_selection_run [] "F1" [("alice", chanA)] (some [chanA], 0)).1.2 := by decide

/-- C8 amended: with a nonempty items dict and a nonempty multi-select choice, every chosen
stream's url is launched as an independent background player process, and before returning
0 the screen waits for each launched player process to exit (not merely for the launches to
complete). -/
theorem C8_launch_then_wait_exit (reg : List Keybind) (bind : String)
    (items : List (String × TwitchChannel)) (streams : List TwitchChannel) (code : Nat)
    (hitems : items.isEmpty = false) (hstreams : streams.isEmpty = false) :
    multi_selection_run reg bind items (some streams, code) =
      ((0, streams.map (fun j => PlayerEvent.launchBg j.url) ++
        streams.map (fun j => PlayerEvent.waitExit j.url)), hide_by_bind reg bind) := by
  simp [multi_selection_run, hitems, hstreams]

/-- Witness for C8 at a single chosen stream. -/
theorem C8_launch_then_wait_exit_witness :
    ([("alice", chanA)] : List (String × TwitchChannel)).isEmpty = false ∧
      ([chanA] : List TwitchChannel).isEmpty = false ∧
      multi_selection_run [] "F1" [("alice", chanA)] (some [chanA], 0) =
        ((0, [chanA].map (fun j => PlayerEvent.launchBg j.url) ++
          [chanA].map (fun j => PlayerEvent.waitExit j.url)), hide_by_bind [] "F1") :=
  ⟨rfl, rfl, C8_launch_then_wait_exit [] "F1" [("alice", chanA)] [chanA] 0 rfl rfl⟩

/-- C10: multi_selection hides the show-keybinds keybind up front and never restores it: on
every return path, any keybind in the final registry carrying that bind label is hidden. -/
theorem C10_show_keys_stays_hidden (reg : List Keybind) (bind : String)
    (items : List (String × TwitchChannel)) (selResp : Option (List TwitchChannel) × Nat)
    (k : Keybind) (hk : k ∈ (multi_selection_run reg bind items selResp).2)
    (hb : k.bind = bind) : k.hidden = true := by
  have hreg : (multi_selection_run reg bind items selResp).2 = hide_by_bind reg bind := rfl
  rw [hreg] at hk
  rcases List.mem_map.mp hk with ⟨k0, _, heq⟩
  by_cases h : k0.bind = bind
  · rw [if_pos h] at heq
    rw [← heq]
  · rw [if_neg h] at heq
    rw [← heq] at hb
    exact absurd hb h

/-- Lookup after a dict assignment: the assigned key reads the new value, others are
unchanged. -/
theorem dictLookup_dictSet (d : List (String × α)) (k g : String) (v : α) :
    dictLookup (dictSet d k v) g = if g = k then some v else dictLookup d g := by
  induction d with
  | nil =>
    rcases eq_or_ne g k with h | h
    · simp [dictSet, dictLookup, h]
    · simp [dictSet, dictLookup, h, Ne.symm h]
  | cons p rest ih =>
    obtain ⟨k0, v0⟩ := p
    rcases eq_or_ne k0 k with hk | hk
    · subst hk
      rcases eq_or_ne g k0 with hg | hg
      · simp [dictSet, dictLookup, hg]
      · simp [dictSet, dictLookup, hg, Ne.symm hg]
    · rcases eq_or_ne g k with hg | hg <;>
        rcases eq_or_ne k0 g with h0 | h0 <;>
          simp_all [dictSet, dictLookup]

/-- The keys after a dict assignment: unchanged for an existing key, appended for a new
one. -/
theorem map_fst_dictSet (d : List (String × α)) (k : String) (v : α) :
    (dictSet d k v).map Prod.fst =
      if k ∈ d.map Prod.fst then d.map Prod.fst else d.map Prod.fst ++ [k] := by
  induction d with
  | nil => simp [dictSet]
  | cons p rest ih =>
    obtain ⟨k0, v0⟩ := p
    rcases eq_or_ne k0 k with hk | hk
    · subst hk
      simp [dictSet]
    · by_cases hm : k ∈ rest.map Prod.fst <;>
        simp [dictSet, hk, Ne.symm hk, ih, hm]

/-- Assigning a fresh key appends the pair at the end. -/
theorem dictSet_eq_append (d : List (String × α)) (k : String) (v : α)
    (h : k ∉ d.map Prod.fst) : dictSet d k v = d ++ [(k, v)] := by
  induction d with
  | nil => rfl
  | cons p rest ih =>
    obtain ⟨k0, v0⟩ := p
    simp only [List.map_cons, List.mem_cons] at h
    push_neg at h
    simp [dictSet, Ne.symm h.1, ih h.2]

/-- A pair found by lookup is a member of the dict. -/
theorem mem_of_dictLookup_eq_some (d : List (String × α)) (g : String) (c : α)
    (h : dictLookup d g = some c) : (g, c) ∈ d := by
  induction d with
  | nil => simp [dictLookup] at h
  | cons p rest ih =>
    obtain ⟨k0, v0⟩ := p
    by_cases hk : k0 = g
    · subst hk
      have h2 : some v0 = some c := by simpa [dictLookup] using h
      obtain rfl := Option.some.inj h2
      exact List.mem_cons_self ..
    · simp only [dictLookup, if_neg hk] at h
      exact List.mem_cons_of_mem _ (ih h)

/-- Under distinct keys, a member pair is what lookup returns at its key. -/
theorem dictLookup_eq_some_of_mem (d : List (String × α)) (g : String) (c : α)
    (hnd : (d.map Prod.fst).Nodup) (h : (g, c) ∈ d) : dictLookup d g = some c := by
  induction d with
  | nil => simp at h
  | cons p rest ih =>
    obtain ⟨k0, v0⟩ := p
    simp only [List.map_cons, List.nodup_cons] at hnd
    rcases List.mem_cons.mp h with h | h
    · rw [Prod.mk.injEq] at h
      obtain ⟨h1, h2⟩ := h
      subst h1; subst h2
      simp [dictLookup]
    · have hg : g ∈ rest.map Prod.fst :=
        List.mem_map.mpr ⟨(g, c), h, rfl⟩
      have hk : k0 ≠ g := fun hh => hnd.1 (hh ▸ hg)
      simp only [dictLookup, if_neg hk]
      exact ih hnd.2 h

/-- A key is in the dict exactly when lookup succeeds on it. -/
theorem dictLookup_isSome_iff (d : List (String × α)) (g : String) :
    (dictLookup d g).isSome = true ↔ g ∈ d.map Prod.fst := by
  induction d with
  | nil => simp [dictLookup]
  | cons p rest ih =>
    obtain ⟨k0, v0⟩ := p
    by_cases hk : k0 = g
    · subst hk
      simp [dictLookup]
    · simp [dictLookup, hk, ih, Ne.symm hk]

/-- Every pair of the per-game listing is a live input item with that game name, keyed by
its own name. -/
theorem gameChannels_mem (items : List TwitchChannel) (g : String)
    (p : String × TwitchChannel) (hp : p ∈ gameChannels items g) :
    p.1 = p.2.name ∧ p.2.live = true ∧ p.2.game_name = g ∧ p.2 ∈ items := by
  simp only [gameChannels, List.mem_map] at hp
  obtain ⟨c, hc, rfl⟩ := hp
  have hf := List.mem_filter.mp hc
  have hb := hf.2
  rw [Bool.and_eq_true, beq_iff_eq] at hb
  exact ⟨rfl, hb.1, hb.2, hf.1⟩

/-- The grouping fold, characterized through lookup: a category present before the fold
grows by the per-game listing of the processed items; a game name absent before the fold
maps afterwards to a fresh category holding exactly its per-game listing, when some live
item carries that game name, and to nothing otherwise.  Requires that distinct live items
sharing a game name have distinct channel names, and that the names already stored for a
game do not collide with the live items still to be processed. -/
theorem dictLookup_foldl_groupStep (markup ansi : Bool) :
    ∀ (items : List TwitchChannel) (cats : List (String × Category)),
      items.Pairwise (fun a b => a.live = true → b.live = true →
        a.game_name = b.game_name → a.name ≠ b.name) →
      (∀ g cat, dictLookup cats g = some cat →
        ∀ c ∈ items, c.live = true → c.game_name = g →
          c.name ∉ cat.channels.map Prod.fst) →
      (∀ g cat, dictLookup cats g = some cat →
        dictLookup (items.foldl (groupStep markup ansi) cats) g =
          some { cat with channels := cat.channels ++ gameChannels items g }) ∧
      (∀ g, dictLookup cats g = none →
        dictLookup (items.foldl (groupStep markup ansi) cats) g =
          if items.any (fun c => c.live && c.game_name == g) then
            some { name := g, channels := gameChannels items g,
                   markup := markup, ansi := ansi }
          else none) := by
  intro items
  induction items with
  | nil =>
    intro cats _ _
    constructor
    · intro g cat hc
      rw [List.foldl_nil, hc]
      obtain ⟨cn, cc, cm, ca⟩ := cat
      simp [gameChannels]
    · intro g hc
      rw [List.foldl_nil, hc]
      simp
  | cons chan rest ih =>
    intro cats hpair hdisj
    have hpairrest := List.Pairwise.of_cons hpair
    have hpairhead := (List.pairwise_cons.mp hpair).1
    by_cases hl : chan.live = false
    · -- non-live channel: the grouping skips it
      have hstep : groupStep markup ansi cats chan = cats := by
        simp [groupStep, hl]
      have hgc : ∀ g, gameChannels (chan :: rest) g = gameChannels rest g := by
        intro g
        simp [gameChannels, List.filter_cons, hl]
      have hany : ∀ g, (chan :: rest).any (fun c => c.live && c.game_name == g) =
          rest.any (fun c => c.live && c.game_name == g) := by
        intro g
        simp [List.any_cons, hl]
      have hih := ih cats hpairrest
        (fun g cat hlk c hc => hdisj g cat hlk c (List.mem_cons_of_mem _ hc))
      constructor
      · intro g cat hc
        rw [List.foldl_cons, hstep, hih.1 g cat hc, hgc]
      · intro g hc
        rw [List.foldl_cons, hstep, hih.2 g hc, hgc, hany]
    · rw [Bool.not_eq_false] at hl
      have hfresh : chan.name ∉
          (setdefaultCat markup ansi cats chan.game_name).channels.map Prod.fst := by
        rcases hc : dictLookup cats chan.game_name with _ | cat
        · simp [setdefaultCat, hc]
        · simp only [setdefaultCat, hc, Option.getD_some]
          exact hdisj chan.game_name cat hc chan (List.mem_cons_self ..) hl rfl
      have hstep : groupStep markup ansi cats chan =
          dictSet cats chan.game_name
            { setdefaultCat markup ansi cats chan.game_name with
              channels := (setdefaultCat markup ansi cats chan.game_name).channels
                ++ [(chan.name, chan)] } := by
        unfold groupStep
        rw [if_neg (by simp [hl]), dictSet_eq_append _ _ _ hfresh]
      have hdisjrest : ∀ g cat,
          dictLookup (dictSet cats chan.game_name
            { setdefaultCat markup ansi cats chan.game_name with
              channels := (setdefaultCat markup ansi cats chan.game_name).channels
                ++ [(chan.name, chan)] }) g = some cat →
          ∀ c ∈ rest, c.live = true → c.game_name = g →
            c.name ∉ cat.channels.map Prod.fst := by
        intro g cat hlk c hc hcl hcg
        rw [dictLookup_dictSet] at hlk
        by_cases hgg : g = chan.game_name
        · rw [if_pos hgg, Option.some.injEq] at hlk
          subst hlk
          simp only [List.map_append, List.mem_append, List.map_cons, List.map_nil,
            List.mem_singleton, not_or]
          refine ⟨?_, ?_⟩
          · rcases hcc : dictLookup cats chan.game_name with _ | cat0
            · simp [setdefaultCat, hcc]
            · simp only [setdefaultCat, hcc, Option.getD_some]
              exact hdisj chan.game_name cat0 hcc c (List.mem_cons_of_mem _ hc) hcl
                (hgg ▸ hcg)
          · have hne := hpairhead c hc hl hcl (by rw [hcg, hgg])
            exact fun hh => hne hh.symm
        · rw [if_neg hgg] at hlk
          exact hdisj g cat hlk c (List.mem_cons_of_mem _ hc) hcl hcg
      have hih := ih _ hpairrest hdisjrest
      constructor
      · intro g cat hc
        rw [List.foldl_cons, hstep]
        by_cases hgg : g = chan.game_name
        · have hc0 : dictLookup cats chan.game_name = some cat := hgg ▸ hc
          have hset : setdefaultCat markup ansi cats chan.game_name = cat := by
            simp [setdefaultCat, hc0]
          have hlk : dictLookup (dictSet cats chan.game_name
              { setdefaultCat markup ansi cats chan.game_name with
                channels := (setdefaultCat markup ansi cats chan.game_name).channels
                  ++ [(chan.name, chan)] }) g =
              some { cat with channels := cat.channels ++ [(chan.name, chan)] } := by
            rw [dictLookup_dictSet, if_pos hgg, hset]
          have hbeq : (chan.game_name == g) = true := beq_iff_eq.mpr hgg.symm
          have hgc : gameChannels (chan :: rest) g =
              (chan.name, chan) :: gameChannels rest g := by
            simp [gameChannels, List.filter_cons, hl, hbeq]
          rw [hih.1 g _ hlk, hgc]
          obtain ⟨cn, cc, cm, ca⟩ := cat
          simp
        · have hlk : dictLookup (dictSet cats chan.game_name
              { setdefaultCat markup ansi cats chan.game_name with
                channels := (setdefaultCat markup ansi cats chan.game_name).channels
                  ++ [(chan.name, chan)] }) g = some cat := by
            rw [dictLookup_dictSet, if_neg hgg, hc]
          have hbeq : (chan.game_name == g) = false :=
            beq_eq_false_iff_ne.mpr (fun hh => hgg (hh ▸ rfl))
          have hgc : gameChannels (chan :: rest) g = gameChannels rest g := by
            simp [gameChannels, List.filter_cons, hbeq]
          rw [hih.1 g cat hlk, hgc]
      · intro g hc
        rw [List.foldl_cons, hstep]
        by_cases hgg : g = chan.game_name
        · have hc0 : dictLookup cats chan.game_name = none := hgg ▸ hc
          have hset : setdefaultCat markup ansi cats chan.game_name =
              { name := chan.game_name, channels := [], markup := markup, ansi := ansi } := by
            simp [setdefaultCat, hc0]
          have hlk : dictLookup (dictSet cats chan.game_name
              { setdefaultCat markup ansi cats chan.game_name with
                channels := (setdefaultCat markup ansi cats chan.game_name).channels
                  ++ [(chan.name, chan)] }) g =
              some { name := chan.game_name, channels := [(chan.name, chan)],
                     markup := markup, ansi := ansi } := by
            rw [dictLookup_dictSet, if_pos hgg, hset]
            rfl
          have hbeq : (chan.game_name == g) = true := beq_iff_eq.mpr hgg.symm
          have hgc : gameChannels (chan :: rest) g =
              (chan.name, chan) :: gameChannels rest g := by
            simp [gameChannels, List.filter_cons, hl, hbeq]
          have hany : (chan :: rest).any (fun c => c.live && c.game_name == g) = true := by
            simp [List.any_cons, hl, hbeq]
          rw [hih.1 g _ hlk, hany, if_pos rfl, hgc, hgg]
          simp
        · have hlk : dictLookup (dictSet cats chan.game_name
              { setdefaultCat markup ansi cats chan.game_name with
                channels := (setdefaultCat markup ansi cats chan.game_name).channels
                  ++ [(chan.name, chan)] }) g = none := by
            rw [dictLookup_dictSet, if_neg hgg, hc]
          have hbeq : (chan.game_name == g) = false :=
            beq_eq_false_iff_ne.mpr (fun hh => hgg (hh ▸ rfl))
          have hgc : gameChannels (chan :: rest) g = gameChannels rest g := by
            simp [gameChannels, List.filter_cons, hbeq]
          have hany : (chan :: rest).any (fun c => c.live && c.game_name == g) =
              rest.any (fun c => c.live && c.game_name == g) := by
            simp [List.any_cons, hbeq]
          rw [hih.2 g hlk, hgc, hany]

/-- The grouping fold keeps the category keys duplicate-free. -/
theorem nodup_keys_foldl_groupStep (markup ansi : Bool) :
    ∀ (items : List TwitchChannel) (cats : List (String × Category)),
      (cats.map Prod.fst).Nodup →
      ((items.foldl (groupStep markup ansi) cats).map Prod.fst).Nodup := by
  intro items
  induction items with
  | nil => intro cats h; exact h
  | cons chan rest ih =>
    intro cats h
    rw [List.foldl_cons]
    apply ih
    by_cases hl : chan.live = false
    · simpa [groupStep, hl] using h
    · rw [Bool.not_eq_false] at hl
      unfold groupStep
      rw [if_neg (by simp [hl]), map_fst_dictSet]
      by_cases hm : chan.game_name ∈ cats.map Prod.fst
      · rw [if_pos hm]
        exact h
      · rw [if_neg hm]
        refine List.nodup_append.mpr ⟨h, List.nodup_singleton _, ?_⟩
        intro x hx hx2
        rw [List.mem_singleton] at hx2
        exact hm (hx2 ▸ hx)

/-- C2 fails as stated: two distinct live channels sharing channel name and game name
collapse to a single channels entry (the later assignment overwrites the earlier one under
the same name key), so the category for game X holds one member with totalViewers 2
instead of the two live members bearing that game name with viewer sum 3. -/
theorem C2_counterexample :
    show_group_by_cat_grouping false false [chanDup1, chanDup2] =
      [("X", { name := "X", channels := [("carol", chanDup2)],
               markup := false, ansi := false })] ∧
      (show_group_by_cat_categories false false [chanDup1, chanDup2]).map
        (fun p => (p.2.channels.length, p.2.total_viewers)) = [(1, 2)] ∧
      ¬ (show_group_by_cat_categories false false [chanDup1, chanDup2]).map
        (fun p => p.2.total_viewers) = [3] := by
  have hg : show_group_by_cat_grouping false false [chanDup1, chanDup2] =
      [("X", { name := "X", channels := [("carol", chanDup2)],
               markup := false, ansi := false })] := by decide
  have hs : show_group_by_cat_categories false false [chanDup1, chanDup2] =
      [("X", { name := "X", channels := [("carol", chanDup2)],
               markup := false, ansi := false })] := by
    unfold show_group_by_cat_categories
    rw [hg, List.mergeSort_singleton]
  refine ⟨hg, ?_, ?_⟩ <;> rw [hs] <;> decide

/-- C2 amended: provided live items sharing a game name have pairwise distinct channel
names, the category screen's grouping yields one category per distinct live game name,
whose channel set is exactly the live items bearing that game name (so non-live items
appear in no category), whose totalViewers is the sum of those members' viewer counts and
whose channelsLive is their number; and the sorted output is descending in totalViewers. -/
theorem C2_grouping_correct (markup ansi : Bool) (items : List TwitchChannel)
    (H : items.Pairwise (fun a b => a.live = true → b.live = true →
      a.game_name = b.game_name → a.name ≠ b.name)) :
    ((show_group_by_cat_categories markup ansi items).map Prod.fst).Nodup ∧
      (∀ g : String, g ∈ (show_group_by_cat_categories markup ansi items).map Prod.fst ↔
        ∃ c ∈ items, c.live = true ∧ c.game_name = g) ∧
      (∀ g cat, (g, cat) ∈ show_group_by_cat_categories markup ansi items →
        cat.name = g ∧
        cat.channels = gameChannels items g ∧
        (∀ p ∈ cat.channels, p.2.live = true ∧ p.2.game_name = g ∧ p.2 ∈ items) ∧
        cat.total_viewers = ((items.filter (fun c => c.live && c.game_name == g)).map
          (fun c => c.viewer_count)).sum ∧
        cat.channels_live = (items.filter (fun c => c.live && c.game_name == g)).length) ∧
      (show_group_by_cat_categories markup ansi items).Pairwise
        (fun a b => b.2.total_viewers ≤ a.2.total_viewers) := by
  have hmaster := dictLookup_foldl_groupStep markup ansi items [] H
    (by intro g cat hlk _c _hc; simp [dictLookup] at hlk)
  have hchar : ∀ g, dictLookup (show_group_by_cat_grouping markup ansi items) g =
      if items.any (fun c => c.live && c.game_name == g) then
        some { name := g, channels := gameChannels items g,
               markup := markup, ansi := ansi }
      else none := fun g => hmaster.2 g rfl
  have hnodupg : ((show_group_by_cat_grouping markup ansi items).map Prod.fst).Nodup :=
    nodup_keys_foldl_groupStep markup ansi items [] (by simp)
  have hperm : (show_group_by_cat_categories markup ansi items).Perm
      (show_group_by_cat_grouping markup ansi items) := List.mergeSort_perm _ _
  have hpermmap : ((show_group_by_cat_categories markup ansi items).map Prod.fst).Perm
      ((show_group_by_cat_grouping markup ansi items).map Prod.fst) := hperm.map _
  have hfilterlive : ∀ g, (gameChannels items g).filter (fun p => p.2.live) =
      gameChannels items g := by
    intro g
    rw [List.filter_eq_self]
    intro p hp
    exact (gameChannels_mem items g p hp).2.1
  refine ⟨hpermmap.nodup_iff.mpr hnodupg, ?_, ?_, ?_⟩
  · intro g
    rw [hpermmap.mem_iff, ← dictLookup_isSome_iff, hchar g]
    by_cases ha : items.any (fun c => c.live && c.game_name == g) = true
    · rw [if_pos ha]
      constructor
      · intro _
        rw [List.any_eq_true] at ha
        obtain ⟨c, hc, hb⟩ := ha
        rw [Bool.and_eq_true, beq_iff_eq] at hb
        exact ⟨c, hc, hb.1, hb.2⟩
      · intro _
        rfl
    · rw [if_neg ha]
      constructor
      · intro hnone
        exact absurd hnone (by simp)
      · rintro ⟨c, hc, hcl, hcg⟩
        exact absurd (List.any_eq_true.mpr
          ⟨c, hc, by rw [Bool.and_eq_true, beq_iff_eq]; exact ⟨hcl, hcg⟩⟩) ha
  · intro g cat hmemcat
    have hmemg : (g, cat) ∈ show_group_by_cat_grouping markup ansi items :=
      hperm.mem_iff.mp hmemcat
    have hlk := dictLookup_eq_some_of_mem _ _ _ hnodupg hmemg
    rw [hchar g] at hlk
    by_cases ha : items.any (fun c => c.live && c.game_name == g) = true
    · rw [if_pos ha] at hlk
      obtain rfl := (Option.some.inj hlk).symm
      refine ⟨rfl, rfl, ?_, ?_, ?_⟩
      · intro p hp
        exact (gameChannels_mem items g p hp).2
      · show Category.total_viewers
          { name := g, channels := gameChannels items g,
            markup := markup, ansi := ansi } = _
        unfold Category.total_viewers
        simp only [hfilterlive g]
        unfold gameChannels
        rw [List.map_map]
        rfl
      · show Category.channels_live
          { name := g, channels := gameChannels items g,
            markup := markup, ansi := ansi } = _
        unfold Category.channels_live
        simp only [hfilterlive g]
        unfold gameChannels
        rw [List.length_map]
    · rw [if_neg ha] at hlk
      exact absurd hlk (by simp)
  · have htrans : ∀ a b c : String × Category,
        Nat.ble b.2.total_viewers a.2.total_viewers →
        Nat.ble c.2.total_viewers b.2.total_viewers →
        Nat.ble c.2.total_viewers a.2.total_viewers := by
      intro a b c hab hbc
      rw [Nat.ble_eq] at hab hbc ⊢
      exact le_trans hbc hab
    have htotal : ∀ a b : String × Category,
        (Nat.ble b.2.total_viewers a.2.total_viewers ||
          Nat.ble a.2.total_viewers b.2.total_viewers) = true := by
      intro a b
      rw [Bool.or_eq_true, Nat.ble_eq, Nat.ble_eq]
      exact Nat.le_total b.2.total_viewers a.2.total_viewers
    have h := List.sorted_mergeSort htrans htotal
      (show_group_by_cat_grouping markup ansi items)
    refine List.Pairwise.imp ?_ h
    intro a b hab
    exact Nat.le_of_ble_eq_true hab

/-- Witness for C2 at a two-item list with distinct names in games X and Y. -/
theorem C2_grouping_correct_witness :
    ([chanA, chanB] : List TwitchChannel).Pairwise (fun a b => a.live = true →
        b.live = true → a.game_name = b.game_name → a.name ≠ b.name) ∧
      (((show_group_by_cat_categories true false [chanA, chanB]).map Prod.fst).Nodup ∧
        (∀ g : String,
          g ∈ (show_group_by_cat_categories true false [chanA, chanB]).map Prod.fst ↔
          ∃ c ∈ [chanA, chanB], c.live = true ∧ c.game_name = g) ∧
        (∀ g cat, (g, cat) ∈ show_group_by_cat_categories true false [chanA, chanB] →
          cat.name = g ∧
          cat.channels = gameChannels [chanA, chanB] g ∧
          (∀ p ∈ cat.channels, p.2.live = true ∧ p.2.game_name = g ∧
            p.2 ∈ [chanA, chanB]) ∧
          cat.total_viewers =
            (([chanA, chanB].filter (fun c => c.live && c.game_name == g)).map
              (fun c => c.viewer_count)).sum ∧
          cat.channels_live =
            ([chanA, chanB].filter (fun c => c.live && c.game_name == g)).length) ∧
        (show_group_by_cat_categories true false [chanA, chanB]).Pairwise
          (fun a b => b.2.total_viewers ≤ a.2.total_viewers)) :=
  ⟨by decide, C2_grouping_correct true false [chanA, chanB] (by decide)⟩

/-- Witness for C10 at the sample registry holding the show-keybinds keybind. -/
theorem C10_show_keys_stays_hidden_witness :
    ({ code := 10, bind := "F1", hidden := true } : Keybind) ∈
        (multi_selection_run [kbShowKeys] "F1" [] (none, 0)).2 ∧
      ({ code := 10, bind := "F1", hidden := true } : Keybind).bind = "F1" ∧
      ({ code := 10, bind := "F1", hidden := true } : Keybind).hidden = true :=
  ⟨by decide, rfl,
    C10_show_keys_stays_hidden [kbShowKeys] "F1" [] (none, 0)
      { code := 10, bind := "F1", hidden := true } (by decide) rfl⟩

end Twitch
